import Mathlib

/-!
Shallow embedding of `src/iot/esp32_code/smartflix_esp32.ino`.

Conventions used throughout:

* A digital reading is a `Bool`, with `HIGH = true` and `LOW = false`
  (matching the Arduino constants used with `INPUT_PULLUP`).
* `millis()` timestamps are `Nat` milliseconds.  The firmware computes
  elapsed time as `millis() - last` on `unsigned long`; for every execution
  in which timestamps are monotone and less than `2^32` ms apart (i.e. any
  run shorter than 49.7 days) that machine subtraction agrees with
  truncated `Nat` subtraction, which is what we use.
* MPU6050 accelerometer samples are 16-bit signed integers, embedded as
  `Int`; the firmware converts them to tilt units by dividing by `16384.0`.
  Every float the firmware manipulates here is an exact multiple of
  `2 ^ (-14)` of magnitude below 4, and the subtractions, absolute values
  and comparisons it performs on them are exact in IEEE single precision,
  so we embed the float arithmetic in `ℚ` without loss.
* JSON parsing is performed by the external ArduinoJson library (an
  external collaborator per the spec); we embed a parsed document as a
  `Json` tree and a parse outcome as `Option Json` (`none` standing for a
  `DeserializationError`), and quantify over parse outcomes.
* The SSD1306 display is modelled as the list of drawing calls the
  firmware issues (`DispOp`), in order.
-/

namespace SmartFlix

/-- `debounceDelay = 50` (ms), from line 31 of the sketch. -/
def debounceDelay : Nat := 50

/-- `tiltThreshold = 1.5`, from line 34 of the sketch. -/
def tiltThreshold : ℚ := 3 / 2

/-- `serverURL`, from line 21 of the sketch. -/
def serverURL : String := "http://10.60.35.73:5000"

/-! ## Button debounce (`readButton`, lines 136-154) -/

/-- The three globals the debounce logic uses: `lastButtonState`,
`buttonState` (both initialised `HIGH`) and `lastDebounceTime` (0). -/
structure BtnState where
  lastButtonState : Bool
  buttonState : Bool
  lastDebounceTime : Nat
deriving Repr, DecidableEq

/-- Boot values of the button globals (lines 28-30). -/
def initBtnState : BtnState := ⟨true, true, 0⟩

/-- One call of `readButton` at time `t` with raw reading `reading`.
Returns the updated globals and whether `onButtonPress` was invoked.
Mirrors lines 136-154: the debounce timestamp is reset whenever the
reading differs from `lastButtonState`; once the reading has been stable
for more than `debounceDelay` ms it becomes the new `buttonState`, and a
`HIGH → LOW` transition of `buttonState` fires `onButtonPress`. -/
def readButton (s : BtnState) (t : Nat) (reading : Bool) : BtnState × Bool :=
  let ldt := if reading ≠ s.lastButtonState then t else s.lastDebounceTime
  if t - ldt > debounceDelay then
    if reading ≠ s.buttonState then
      (⟨reading, reading, ldt⟩, reading == false)
    else
      (⟨reading, s.buttonState, ldt⟩, false)
  else
    (⟨reading, s.buttonState, ldt⟩, false)

/-- Folds `readButton` over a list of polled `(time, reading)` samples,
collecting the samples at which `onButtonPress` fired. -/
def runButton (s : BtnState) : List (Nat × Bool) → BtnState × List (Nat × Bool)
  | [] => (s, [])
  | (t, r) :: rest =>
    let step := readButton s t r
    let next := runButton step.1 rest
    (next.1, (if step.2 then [(t, r)] else []) ++ next.2)

/-! ## Tilt detection (`readTiltSensor`, lines 156-183) -/

/-- The tilt globals: `lastTiltX`, `lastTiltY` (tilt units) and
`lastTiltTime` (ms), lines 35-36. -/
structure TiltState where
  lastTiltX : ℚ
  lastTiltY : ℚ
  lastTiltTime : Nat
deriving Repr, DecidableEq

/-- Boot values of the tilt globals (lines 35-36). -/
def initTiltState : TiltState := ⟨0, 0, 0⟩

/-- Conversion of a raw accelerometer sample to tilt units:
`(float)accel / 16384.0` (lines 170-171). -/
def tiltOf (accel : Int) : ℚ := (accel : ℚ) / 16384

/-- One call of `readTiltSensor` at time `t` with raw accelerometer
samples `accelX`, `accelY`.  Returns the updated globals and whether
`onTiltDetected` was invoked.  Mirrors lines 169-182: an event fires when
either axis moved by more than `tiltThreshold` since the previous sample
AND strictly more than 1000 ms passed since the previous event; the
baselines `lastTiltX`/`lastTiltY` are overwritten with the current sample
on every call, fire or not. -/
def readTiltSensor (s : TiltState) (t : Nat) (accelX accelY : Int) :
    TiltState × Bool :=
  let tiltX := tiltOf accelX
  let tiltY := tiltOf accelY
  if (tiltThreshold < |tiltX - s.lastTiltX| ∨ tiltThreshold < |tiltY - s.lastTiltY|)
      ∧ 1000 < t - s.lastTiltTime then
    (⟨tiltX, tiltY, t⟩, true)
  else
    (⟨tiltX, tiltY, s.lastTiltTime⟩, false)

/-- Folds `readTiltSensor` over a list of polled `(time, accelX, accelY)`
samples, collecting the `(time, tiltX, tiltY)` of each emitted event. -/
def runTilt (s : TiltState) : List (Nat × Int × Int) → TiltState × List (Nat × ℚ × ℚ)
  | [] => (s, [])
  | (t, ax, ay) :: rest =>
    let step := readTiltSensor s t ax ay
    let next := runTilt step.1 rest
    (next.1, (if step.2 then [(t, tiltOf ax, tiltOf ay)] else []) ++ next.2)

/-! ## JSON documents (ArduinoJson, external library) -/

/-- A parsed JSON document, standing for an ArduinoJson
`DynamicJsonDocument` after a successful `deserializeJson`. -/
inductive Json where
  | null : Json
  | bool (b : Bool) : Json
  | num (q : ℚ) : Json
  | str (s : String) : Json
  | arr (elems : List Json) : Json
  | obj (fields : List (String × Json)) : Json
deriving Repr

/-- `doc.containsKey(k)`: true exactly on objects that carry the key. -/
def Json.containsKey : Json → String → Bool
  | .obj fields, k => fields.any (fun f => f.1 == k)
  | _, _ => false

/-- `doc[k]`: member access, yielding the ArduinoJson null variant when
the document is not an object or lacks the key. -/
def Json.getField : Json → String → Json
  | .obj fields, k =>
    match fields.find? (fun f => f.1 == k) with
    | some f => f.2
    | none => .null
  | _, _ => .null

/-- Conversion of a variant to `JsonArray`: a non-array converts to the
null array, whose `size()` is 0 and which yields no elements. -/
def Json.asArr : Json → List Json
  | .arr elems => elems
  | _ => []

/-- Conversion of a variant to `String` (`String title = movies[i]["title"]`).
Non-string variants are irrelevant to the claims; we map them to `""`. -/
def Json.asString : Json → String
  | .str s => s
  | _ => ""

/-- Conversion of a variant to `float` (`float score = movies[i]["score"]`).
Non-numeric variants are irrelevant to the claims; we map them to `0`. -/
def Json.asFloat : Json → ℚ
  | .num q => q
  | _ => 0

/-! ## Display rendering (lines 258-337) -/

/-- One drawing call issued to the SSD1306 display.  `printIndex n`
stands for `display.print(i + 1)` with `n = i + 1`; `printFloat1 q`
stands for `display.println(score, 1)`; `display` stands for
`display.display()`. -/
inductive DispOp where
  | clear : DispOp
  | setCursor (x y : Nat) : DispOp
  | print (s : String) : DispOp
  | println (s : String) : DispOp
  | printIndex (n : Nat) : DispOp
  | printFloat1 (q : ℚ) : DispOp
  | display : DispOp
deriving Repr, DecidableEq

/-- Codepoint-level view of the title-shortening step of
`displayRecommendations` (lines 286-288), used only to build the
`println` payloads of the drawing-op model below; the op *shape* of an
entry never depends on it.  Arduino `String::length()` and
`substring(0, 15)` actually index UTF-8 *bytes*, not characters; the
byte-faithful model of lines 286-288 is `shortenTitleBytes` below, and
the title-shortening claim is settled against that byte model. -/
def shortenTitle (title : String) : String :=
  if title.length > 15 then title.take 15 ++ "..." else title

/-- The drawing calls for the `i`-th rendered movie entry, lines 281-298. -/
def movieEntry (i : Nat) (movie : Json) : List DispOp :=
  [.setCursor 0 (16 + i * 16),
   .printIndex (i + 1),
   .print ". ",
   .println (shortenTitle ((movie.getField "title").asString)),
   .setCursor 20 (24 + i * 16),
   .print "⭐",
   .printFloat1 ((movie.getField "score").asFloat)]

/-- `displayDemoRecommendations` (lines 306-329): the hardcoded
three-movie demo screen. -/
def displayDemoRecommendations : List DispOp :=
  [.clear, .setCursor 0 0,
   .println "🎬 Top 3 Movies",
   .println "---------------",
   .setCursor 0 16, .println "1. Toy Story",
   .setCursor 20 24, .println "⭐4.8",
   .setCursor 0 32, .println "2. The Godfather",
   .setCursor 20 40, .println "⭐4.7",
   .setCursor 0 48, .println "3. Inception",
   .setCursor 20 56, .println "⭐4.9",
   .display]

/-- `displayError` (lines 331-337). -/
def displayError (error : String) : List DispOp :=
  [.clear, .setCursor 0 0, .println "❌ Error", .println error, .display]

/-- `displayRecommendations` (lines 258-304), taking the outcome of the
external `deserializeJson` call on the response string (`none` standing
for a `DeserializationError`).  On parse failure or a missing
`recommendations` key it falls back to the demo screen; otherwise it
renders a header and `min(size, 3)` movie entries. -/
def displayRecommendations (parsed : Option Json) : List DispOp :=
  match parsed with
  | none => displayDemoRecommendations
  | some doc =>
    if doc.containsKey "recommendations" then
      let movies := (doc.getField "recommendations").asArr
      let displayCount := if movies.length < 3 then movies.length else 3
      [DispOp.clear, DispOp.setCursor 0 0,
       DispOp.println "🎬 Top 3 Movies",
       DispOp.println "---------------"]
        ++ ((List.range displayCount).map
             (fun i => movieEntry i (movies.getD i Json.null))).flatten
        ++ [DispOp.display]
    else
      displayDemoRecommendations

/-- Whether a drawing call is the rank number of a movie entry
(`display.print(i + 1)`). -/
def isPrintIndex : DispOp → Bool
  | .printIndex _ => true
  | _ => false

/-- Number of movie entries rendered in a drawing sequence: each rendered
entry prints exactly one rank number (`display.print(i + 1)`), and
nothing else does. -/
def entriesRendered (ops : List DispOp) : Nat :=
  (ops.filter isPrintIndex).length

/-! ## The API request (`sendAPIRequest`, lines 215-256) -/

/-- The HTTP request the firmware builds: method, URL, `Content-Type`
header, and the serialized `DynamicJsonDocument` payload as its ordered
field list (lines 219-230). -/
structure Request where
  method : String
  url : String
  contentType : String
  body : List (String × Json)

/-- The environment a single `sendAPIRequest` call runs against: the WiFi
link state, the code returned by `http.POST`, the response body returned
by `http.getString()`, and the outcome of `deserializeJson` on that body
(the parser being the external ArduinoJson library). -/
structure ApiEnv where
  wifiConnected : Bool
  httpResponseCode : Int
  responseBody : String
  responseParsed : Option Json

/-- What one `sendAPIRequest` call did: the request it sent (at most one;
`none` when WiFi was down and no POST was attempted), its `String` return
value, and the drawing calls it issued. -/
structure ApiOutcome where
  request : Option Request
  ret : String
  ops : List DispOp

/-- `sendAPIRequest(interactionType, data)` (lines 215-256).  With WiFi
connected it POSTs `{type, data, device: "esp32"}` to
`serverURL + "/api/interact"`; a positive response code renders the
parsed response and returns the raw body, a non-positive code shows the
"API Error" screen and returns `"Error"`; without WiFi it sends nothing,
shows the "WiFi Disconnected" screen and returns `"Offline"`. -/
def sendAPIRequest (env : ApiEnv) (interactionType data : String) : ApiOutcome :=
  if env.wifiConnected then
    let req : Request :=
      ⟨"POST", serverURL ++ "/api/interact", "application/json",
       [("type", Json.str interactionType),
        ("data", Json.str data),
        ("device", Json.str "esp32")]⟩
    if env.httpResponseCode > 0 then
      ⟨some req, env.responseBody, displayRecommendations env.responseParsed⟩
    else
      ⟨some req, "Error", displayError "API Error"⟩
  else
    ⟨none, "Offline", displayError "WiFi Disconnected"⟩

/-! ## Event call sites (`onButtonPress` lines 185-198,
`onTiltDetected` lines 200-213) -/

/-- Arduino `String(float)`: the value printed with 2 decimal places. -/
def fmt2 (q : ℚ) : String :=
  let sign := if q < 0 then "-" else ""
  let n : Nat := (round (|q| * 100) : ℤ).toNat
  sign ++ toString (n / 100) ++ "." ++
    (if n % 100 < 10 then "0" else "") ++ toString (n % 100)

/-- The two events that trigger an API request. -/
inductive Event where
  | button : Event
  | tilt (tiltX tiltY : ℚ) : Event

/-- The `interactionType` argument each call site passes (lines 189, 204). -/
def Event.interactionType : Event → String
  | .button => "button"
  | .tilt _ _ => "tilt"

/-- The `data` argument each call site passes: `""` for the button,
`String(tiltX) + "," + String(tiltY)` for a tilt (lines 189, 203-204). -/
def Event.dataOf : Event → String
  | .button => ""
  | .tilt x y => fmt2 x ++ "," ++ fmt2 y

/-- Dispatch of an event to `sendAPIRequest`, returning its outcome and
the status screen the handler draws afterwards (lines 191-195, 206-210). -/
def handleEvent (env : ApiEnv) : Event → ApiOutcome × List DispOp
  | .button =>
    (sendAPIRequest env "button" "",
     [.clear, .setCursor 0 0, .println "Button Pressed",
      .println "Getting movies...", .display])
  | .tilt x y =>
    (sendAPIRequest env "tilt" (fmt2 x ++ "," ++ fmt2 y),
     [.clear, .setCursor 0 0, .println "Tilt Gesture",
      .println "Navigating...", .display])

/-! ## Claims C3 and C6 (button debounce) need no further definitions:
they are settled against `readButton` and `runButton` directly. -/

/-! ## Spec-side tilt definitions, for comparison with `runTilt` -/

/-- Written from the words of claim C1 (not from the source), for
comparison: an event is emitted when either axis delta measured since the
last *emitted* event exceeds the threshold AND at least 1000 ms has
elapsed since the last emitted event.  `lastEventX`/`lastEventY` and
`lastEventTime` are the tilt values and time of the last emitted event. -/
def claimTiltEmit (lastEventX lastEventY : ℚ) (lastEventTime : Nat)
    (t : Nat) (accelX accelY : Int) : Bool :=
  decide ((tiltThreshold < |tiltOf accelX - lastEventX| ∨
           tiltThreshold < |tiltOf accelY - lastEventY|) ∧
          1000 ≤ t - lastEventTime)

/-- Written from the words of the amended claim C1 (not from the source),
for comparison: the event list obtained by emitting exactly when either
axis delta measured since the *previous poll sample* (`baseX`, `baseY`,
re-baselined at every sample) exceeds the threshold AND strictly more
than 1000 ms has elapsed since the last emitted event (`lastEmit`,
initially the boot time 0). -/
def amendedTiltRun (baseX baseY : ℚ) (lastEmit : Nat) :
    List (Nat × Int × Int) → List (Nat × ℚ × ℚ)
  | [] => []
  | (t, ax, ay) :: rest =>
    let tx := tiltOf ax
    let ty := tiltOf ay
    if (tiltThreshold < |tx - baseX| ∨ tiltThreshold < |ty - baseY|)
        ∧ 1000 < t - lastEmit then
      (t, tx, ty) :: amendedTiltRun tx ty t rest
    else
      amendedTiltRun tx ty lastEmit rest

/-! ## Byte-level model of the Arduino `String` title (lines 286-288)

An Arduino `String` is a buffer of UTF-8 bytes: `title.length()` counts
bytes and `title.substring(0, 15)` keeps the first 15 bytes, even when
that splits a multi-byte character.  We model the buffer as the `List Nat`
of the title's UTF-8 bytes. -/

/-- The UTF-8 encoding of one character, as its list of byte values. -/
def utf8EncodeCharNat (c : Char) : List Nat :=
  let v := c.toNat
  if v < 0x80 then [v]
  else if v < 0x800 then
    [0xC0 + v / 0x40, 0x80 + v % 0x40]
  else if v < 0x10000 then
    [0xE0 + v / 0x1000, 0x80 + (v / 0x40) % 0x40, 0x80 + v % 0x40]
  else
    [0xF0 + v / 0x40000, 0x80 + (v / 0x1000) % 0x40,
     0x80 + (v / 0x40) % 0x40, 0x80 + v % 0x40]

/-- The UTF-8 byte buffer an Arduino `String` holds for `s`. -/
def utf8Bytes (s : String) : List Nat :=
  (s.data.map utf8EncodeCharNat).flatten

/-- The title-shortening step of `displayRecommendations` (lines 286-288)
on the byte buffer, exactly as Arduino executes it:
`if (title.length() > 15) title = title.substring(0, 15) + "...";`
with `length()` counting bytes and `substring(0, 15)` keeping the first
15 bytes. -/
def shortenTitleBytes (title : List Nat) : List Nat :=
  if title.length > 15 then title.take 15 ++ utf8Bytes "..." else title

/-! ## Helper lemmas -/

/-- Unfolding `runTilt` one step when the tilt condition holds. -/
lemma runTilt_cons_fire {s : TiltState} {t : Nat} {ax ay : Int}
    (rest : List (Nat × Int × Int))
    (hc : (tiltThreshold < |tiltOf ax - s.lastTiltX| ∨
           tiltThreshold < |tiltOf ay - s.lastTiltY|) ∧ 1000 < t - s.lastTiltTime) :
    runTilt s ((t, ax, ay) :: rest) =
      ((runTilt ⟨tiltOf ax, tiltOf ay, t⟩ rest).1,
       (t, tiltOf ax, tiltOf ay) :: (runTilt ⟨tiltOf ax, tiltOf ay, t⟩ rest).2) := by
  simp [runTilt, readTiltSensor, hc]

/-- Unfolding `runTilt` one step when the tilt condition fails. -/
lemma runTilt_cons_skip {s : TiltState} {t : Nat} {ax ay : Int}
    (rest : List (Nat × Int × Int))
    (hc : ¬ ((tiltThreshold < |tiltOf ax - s.lastTiltX| ∨
              tiltThreshold < |tiltOf ay - s.lastTiltY|) ∧ 1000 < t - s.lastTiltTime)) :
    runTilt s ((t, ax, ay) :: rest) =
      runTilt ⟨tiltOf ax, tiltOf ay, s.lastTiltTime⟩ rest := by
  simp [runTilt, readTiltSensor, hc]

/-- Invariant for tilt event spacing: along any run, the first emitted
event comes strictly more than 1000 ms after the stored `lastTiltTime`,
and consecutive emitted events are strictly more than 1000 ms apart. -/
lemma runTilt_spacing : ∀ (samples : List (Nat × Int × Int)) (s : TiltState),
    (∀ f ∈ ((runTilt s samples).2).head?, 1000 < f.1 - s.lastTiltTime) ∧
    List.Chain' (fun a b => 1000 < b.1 - a.1) (runTilt s samples).2
  | [], s => by simp [runTilt]
  | (t, ax, ay) :: rest, s => by
    by_cases hc : (tiltThreshold < |tiltOf ax - s.lastTiltX| ∨
        tiltThreshold < |tiltOf ay - s.lastTiltY|) ∧ 1000 < t - s.lastTiltTime
    · rw [runTilt_cons_fire rest hc]
      have ih := runTilt_spacing rest ⟨tiltOf ax, tiltOf ay, t⟩
      refine ⟨?_, ?_⟩
      · intro f hf
        simp only [List.head?_cons, Option.mem_def, Option.some.injEq] at hf
        subst hf
        exact hc.2
      · exact List.chain'_cons'.2 ⟨fun b hb => ih.1 b hb, ih.2⟩
    · rw [runTilt_cons_skip rest hc]
      exact runTilt_spacing rest ⟨tiltOf ax, tiltOf ay, s.lastTiltTime⟩

/-- Refinement: `runTilt` from any state equals the spec-worded amended
run started at that state's baselines and event time. -/
lemma runTilt_eq_amended : ∀ (samples : List (Nat × Int × Int)) (s : TiltState),
    (runTilt s samples).2 = amendedTiltRun s.lastTiltX s.lastTiltY s.lastTiltTime samples
  | [], s => by simp [runTilt, amendedTiltRun]
  | (t, ax, ay) :: rest, s => by
    by_cases hc : (tiltThreshold < |tiltOf ax - s.lastTiltX| ∨
        tiltThreshold < |tiltOf ay - s.lastTiltY|) ∧ 1000 < t - s.lastTiltTime
    · rw [runTilt_cons_fire rest hc]
      simp only [amendedTiltRun, hc, if_pos]
      exact congrArg _ (runTilt_eq_amended rest ⟨tiltOf ax, tiltOf ay, t⟩)
    · rw [runTilt_cons_skip rest hc]
      simp only [amendedTiltRun, hc, if_neg, not_false_iff]
      exact runTilt_eq_amended rest ⟨tiltOf ax, tiltOf ay, s.lastTiltTime⟩

/-- The emitted-event list of a one-step fire, projected from
`runTilt_cons_fire`. -/
lemma runTilt_snd_fire {s : TiltState} {t : Nat} {ax ay : Int}
    (rest : List (Nat × Int × Int))
    (hc : (tiltThreshold < |tiltOf ax - s.lastTiltX| ∨
           tiltThreshold < |tiltOf ay - s.lastTiltY|) ∧ 1000 < t - s.lastTiltTime) :
    (runTilt s ((t, ax, ay) :: rest)).2 =
      (t, tiltOf ax, tiltOf ay) :: (runTilt ⟨tiltOf ax, tiltOf ay, t⟩ rest).2 := by
  rw [runTilt_cons_fire rest hc]

/-- The emitted-event list of a one-step skip, projected from
`runTilt_cons_skip`. -/
lemma runTilt_snd_skip {s : TiltState} {t : Nat} {ax ay : Int}
    (rest : List (Nat × Int × Int))
    (hc : ¬ ((tiltThreshold < |tiltOf ax - s.lastTiltX| ∨
              tiltThreshold < |tiltOf ay - s.lastTiltY|) ∧ 1000 < t - s.lastTiltTime)) :
    (runTilt s ((t, ax, ay) :: rest)).2 =
      (runTilt ⟨tiltOf ax, tiltOf ay, s.lastTiltTime⟩ rest).2 := by
  rw [runTilt_cons_skip rest hc]

/-! ## Claim C1 (tilt emission condition) -/

/-- C1 counterexample.  Run the tilt detector from boot on three samples.
The only emitted event is at `t = 1100` with tilt `(24577/16384, 0)`.
At the third sample `(t = 2400, accel = (-8192, 0))` the claim's own
emission predicate — delta measured since the last *emitted* event
exceeds 1.5 and at least 1000 ms elapsed since it — holds
(`|(-8192/16384) - 24577/16384| = 32769/16384 > 3/2`, `2400 - 1100 ≥ 1000`),
yet the detector emits nothing there, because the code measures deltas
against the previous poll sample (`lastTiltX` is rewritten every call),
not against the last emitted event. -/
theorem tilt_claim_counterexample :
    (runTilt initTiltState [(1100, 24577, 0), (1700, 8192, 0), (2400, -8192, 0)]).2
      = [(1100, 24577 / 16384, 0)] ∧
    claimTiltEmit (24577 / 16384) 0 1100 2400 (-8192) 0 = true := by
  have h1 : (tiltThreshold < |tiltOf 24577 - initTiltState.lastTiltX| ∨
      tiltThreshold < |tiltOf 0 - initTiltState.lastTiltY|) ∧
      1000 < 1100 - initTiltState.lastTiltTime := by
    refine ⟨Or.inl ?_, by norm_num [initTiltState]⟩
    rw [lt_abs]
    left
    norm_num [initTiltState, tiltOf, tiltThreshold]
  have h2 : ¬ ((tiltThreshold <
        |tiltOf 8192 - (TiltState.mk (tiltOf 24577) (tiltOf 0) 1100).lastTiltX| ∨
      tiltThreshold <
        |tiltOf 0 - (TiltState.mk (tiltOf 24577) (tiltOf 0) 1100).lastTiltY|) ∧
      1000 < 1700 - (TiltState.mk (tiltOf 24577) (tiltOf 0) 1100).lastTiltTime) := by
    rintro ⟨-, ht⟩
    norm_num at ht
  have h3 : ¬ ((tiltThreshold <
        |tiltOf (-8192) - (TiltState.mk (tiltOf 8192) (tiltOf 0) 1100).lastTiltX| ∨
      tiltThreshold <
        |tiltOf 0 - (TiltState.mk (tiltOf 8192) (tiltOf 0) 1100).lastTiltY|) ∧
      1000 < 2400 - (TiltState.mk (tiltOf 8192) (tiltOf 0) 1100).lastTiltTime) := by
    rintro ⟨hd, -⟩
    rcases hd with hd | hd <;> rw [lt_abs] at hd <;>
      rcases hd with hd | hd <;> norm_num [tiltOf, tiltThreshold] at hd
  have e1 : (runTilt initTiltState
      [(1100, 24577, 0), (1700, 8192, 0), (2400, -8192, 0)]).2 =
      (1100, tiltOf 24577, tiltOf 0) ::
        (runTilt ⟨tiltOf 24577, tiltOf 0, 1100⟩ [(1700, 8192, 0), (2400, -8192, 0)]).2 :=
    runTilt_snd_fire _ h1
  have e2 : (runTilt (TiltState.mk (tiltOf 24577) (tiltOf 0) 1100)
      [(1700, 8192, 0), (2400, -8192, 0)]).2 =
      (runTilt ⟨tiltOf 8192, tiltOf 0, 1100⟩ [(2400, -8192, 0)]).2 :=
    runTilt_snd_skip _ h2
  have e3 : (runTilt (TiltState.mk (tiltOf 8192) (tiltOf 0) 1100)
      [(2400, -8192, 0)]).2 =
      (runTilt ⟨tiltOf (-8192), tiltOf 0, 1100⟩ []).2 :=
    runTilt_snd_skip _ h3
  constructor
  · rw [e1, e2, e3]
    norm_num [runTilt, tiltOf]
  · rw [claimTiltEmit, decide_eq_true_iff]
    refine ⟨Or.inl ?_, by norm_num⟩
    rw [lt_abs]
    right
    norm_num [tiltOf, tiltThreshold]

/-- C1 (amended): from boot, the tilt detector emits exactly the events
of the spec-worded run in which either axis delta measured since the
*previous poll sample* exceeds the 1.5 threshold AND strictly more than
1000 ms has elapsed since the last emitted event, the baseline being
re-assigned to the current sample at every poll whether or not an event
is emitted. -/
theorem runTilt_matches_amended_claim (samples : List (Nat × Int × Int)) :
    (runTilt initTiltState samples).2 = amendedTiltRun 0 0 0 samples :=
  runTilt_eq_amended samples initTiltState

/-! ## Claim C5 (tilt events spaced by more than 1000 ms) -/

/-- C5: in every run of the polling loop from boot, consecutive emitted
tilt events are strictly more than 1000 ms apart: whenever an event is
emitted at time `t` and the previous one was emitted at time `t'`, then
`t - t' > 1000`. -/
theorem tilt_events_spaced (samples : List (Nat × Int × Int)) :
    List.Chain' (fun a b => 1000 < b.1 - a.1) (runTilt initTiltState samples).2 :=
  (runTilt_spacing samples initTiltState).2

/-! ## Claim C3 (debounce fires only after a stable low) -/

/-- C3: `onButtonPress` fires at a poll `(t, reading)` only if the
reading is `LOW`, the reading did not just change (`reading` equals
`lastButtonState`, so `lastDebounceTime` — the timestamp of the last
observed change of the raw reading — is left untouched by this poll),
and strictly more than `debounceDelay = 50` ms (hence at least 50 ms)
have elapsed since that last change. -/
theorem readButton_fire_requires_stable_low (s : BtnState) (t : Nat) (r : Bool)
    (h : (readButton s t r).2 = true) :
    r = false ∧ r = s.lastButtonState ∧
    debounceDelay < t - s.lastDebounceTime ∧
    (readButton s t r).1.lastDebounceTime = s.lastDebounceTime := by
  by_cases hr : r = s.lastButtonState
  · by_cases hd : debounceDelay < t - s.lastDebounceTime
    · by_cases hb : s.lastButtonState = s.buttonState
      · simp [readButton, hr, hd, hb] at h
      · have hfalse : s.lastButtonState = false := by
          simpa [readButton, hr, hd, hb] using h
        exact ⟨hr.trans hfalse, hr, hd, by simp [readButton, hr, hd, hb]⟩
    · simp [readButton, hr, hd] at h
  · simp [readButton, hr, debounceDelay] at h

/-- Witness for C3: a concrete firing poll satisfying its hypothesis. -/
theorem readButton_fire_requires_stable_low_witness :
    ((readButton ⟨false, true, 0⟩ 100 false).2 = true) ∧
    (false = false ∧ false = (BtnState.mk false true 0).lastButtonState ∧
     debounceDelay < 100 - (BtnState.mk false true 0).lastDebounceTime ∧
     (readButton ⟨false, true, 0⟩ 100 false).1.lastDebounceTime =
       (BtnState.mk false true 0).lastDebounceTime) :=
  ⟨by decide, readButton_fire_requires_stable_low ⟨false, true, 0⟩ 100 false (by decide)⟩

/-! ## Claim C6 (debounce idempotent while held) -/

/-- C6: once the debounced `buttonState` is `LOW` (which is the state
right after `onButtonPress` has fired), `onButtonPress` cannot fire again
on any sequence of polls whose raw readings all stay `LOW`: leaving the
held state requires the stable reading to return to `HIGH` first. -/
theorem runButton_idempotent_while_held :
    ∀ (samples : List (Nat × Bool)) (s : BtnState),
      s.buttonState = false → (∀ p ∈ samples, p.2 = false) →
      (runButton s samples).2 = []
  | [], _, _, _ => by simp [runButton]
  | (t, r) :: rest, s, hb, hall => by
    have hr : r = false := hall (t, r) (by simp)
    subst hr
    have hstep : (readButton s t false).2 = false ∧
        (readButton s t false).1.buttonState = false := by
      constructor <;> simp [readButton, hb]
    simp only [runButton, hstep.1, if_false, List.nil_append]
    exact runButton_idempotent_while_held rest _ hstep.2
      (fun p hp => hall p (List.mem_cons_of_mem _ hp))

/-- Witness for C6: a concrete held run satisfying its hypotheses. -/
theorem runButton_idempotent_while_held_witness :
    ((BtnState.mk false false 0).buttonState = false) ∧
    (∀ p ∈ [(60, false), (200, false)], (p : Nat × Bool).2 = false) ∧
    (runButton ⟨false, false, 0⟩ [(60, false), (200, false)]).2 = [] :=
  ⟨by decide, by decide,
   runButton_idempotent_while_held [(60, false), (200, false)] ⟨false, false, 0⟩
     (by decide) (by decide)⟩

/-! ## Display rendering lemmas -/

/-- Each rendered movie entry is exactly 7 drawing calls. -/
lemma movieEntry_length (i : Nat) (m : Json) : (movieEntry i m).length = 7 := rfl

/-- Shape of `displayRecommendations` on a parsed document that carries
the `recommendations` key, with `displayCount` rewritten as a `min`. -/
lemma displayRecommendations_some_of_containsKey (doc : Json)
    (hk : doc.containsKey "recommendations" = true) :
    displayRecommendations (some doc) =
      [DispOp.clear, DispOp.setCursor 0 0,
       DispOp.println "🎬 Top 3 Movies",
       DispOp.println "---------------"]
        ++ ((List.range (min ((doc.getField "recommendations").asArr.length) 3)).map
             (fun i => movieEntry i (((doc.getField "recommendations").asArr).getD i Json.null))).flatten
        ++ [DispOp.display] := by
  have hmin : (if ((doc.getField "recommendations").asArr).length < 3
      then ((doc.getField "recommendations").asArr).length else 3)
      = min ((doc.getField "recommendations").asArr).length 3 := by
    rcases lt_or_ge ((doc.getField "recommendations").asArr).length 3 with h | h
    · simp [h, Nat.min_eq_left h.le]
    · simp [Nat.not_lt.2 h, Nat.min_eq_right h]
  simp only [displayRecommendations, hk, if_true]
  rw [hmin]

/-- Length of the rendering of a document carrying the key:
a 4-call header, 7 calls per entry, and the final `display()`. -/
lemma length_displayRecommendations (doc : Json)
    (hk : doc.containsKey "recommendations" = true) :
    (displayRecommendations (some doc)).length =
      5 + 7 * min ((doc.getField "recommendations").asArr.length) 3 := by
  rw [displayRecommendations_some_of_containsKey doc hk]
  simp only [List.length_append, List.length_flatten, List.map_map, List.length_cons,
    List.length_nil]
  rw [show (List.length ∘ fun i =>
        movieEntry i (((doc.getField "recommendations").asArr).getD i Json.null))
      = fun _ => 7 from rfl]
  rw [List.map_const', List.length_range, List.sum_const_nat]
  omega

/-- Each entry contributes exactly one rank-number call. -/
lemma entriesRendered_displayRecommendations (doc : Json)
    (hk : doc.containsKey "recommendations" = true) :
    entriesRendered (displayRecommendations (some doc)) =
      min ((doc.getField "recommendations").asArr.length) 3 := by
  rw [displayRecommendations_some_of_containsKey doc hk]
  simp only [entriesRendered, List.filter_append, List.filter_flatten, List.map_map,
    List.length_append]
  rw [show (List.filter isPrintIndex ∘ fun i =>
        movieEntry i (((doc.getField "recommendations").asArr).getD i Json.null))
      = fun i => [DispOp.printIndex (i + 1)] from rfl]
  rw [show (List.filter isPrintIndex
        [DispOp.clear, DispOp.setCursor 0 0, DispOp.println "🎬 Top 3 Movies",
         DispOp.println "---------------"]) = [] from rfl]
  rw [show List.filter isPrintIndex [DispOp.display] = [] from rfl]
  simp only [List.length_nil, List.length_flatten, List.map_map]
  rw [show (List.length ∘ fun i => [DispOp.printIndex (i + 1)]) = fun _ => (1 : Nat) from rfl]
  rw [List.map_const', List.length_range, List.sum_const_nat]
  omega

/-! ## Claim C4 (entry count and demo fallback) -/

/-- C4: the demo screen is shown exactly when the response failed to
parse or the parsed document lacks the `recommendations` key; otherwise
the number of rendered movie entries is the minimum of the array size
and 3 (so never more than 3). -/
theorem displayRecommendations_demo_iff_count (parsed : Option Json) :
    (displayRecommendations parsed = displayDemoRecommendations ↔
      parsed = none ∨
        ∃ doc, parsed = some doc ∧ doc.containsKey "recommendations" = false) ∧
    (∀ doc, parsed = some doc → doc.containsKey "recommendations" = true →
      entriesRendered (displayRecommendations parsed) =
        min ((doc.getField "recommendations").asArr.length) 3) := by
  cases parsed with
  | none =>
    refine ⟨⟨fun _ => Or.inl rfl, fun _ => rfl⟩, fun doc hd => ?_⟩
    exact absurd hd (by simp)
  | some doc =>
    by_cases hk : doc.containsKey "recommendations" = true
    · constructor
      · constructor
        · intro he
          have hlen := congrArg List.length he
          rw [length_displayRecommendations doc hk,
            show displayDemoRecommendations.length = 17 from rfl] at hlen
          omega
        · rintro (h | ⟨doc', hdoc', hk'⟩)
          · exact absurd h (by simp)
          · obtain rfl : doc = doc' := Option.some.inj hdoc'
            rw [hk] at hk'
            cases hk'
      · intro doc' hdoc' _
        obtain rfl : doc = doc' := Option.some.inj hdoc'
        exact entriesRendered_displayRecommendations doc hk
    · have hk' : doc.containsKey "recommendations" = false := by
        rcases Bool.eq_false_or_eq_true (doc.containsKey "recommendations") with h | h
        · exact absurd h hk
        · exact h
      constructor
      · exact ⟨fun _ => Or.inr ⟨doc, rfl, hk'⟩, fun _ => by simp [displayRecommendations, hk']⟩
      · intro doc' hdoc' hktrue
        obtain rfl : doc = doc' := Option.some.inj hdoc'
        rw [hk'] at hktrue
        cases hktrue

/-- Witness for C4: a one-element `recommendations` array renders
`min 1 3 = 1` entry. -/
theorem displayRecommendations_demo_iff_count_witness :
    ((Json.obj [("recommendations", Json.arr [Json.null])]).containsKey
        "recommendations" = true) ∧
    entriesRendered (displayRecommendations
        (some (Json.obj [("recommendations", Json.arr [Json.null])]))) =
      min (((Json.obj [("recommendations", Json.arr [Json.null])]).getField
        "recommendations").asArr.length) 3 :=
  ⟨rfl,
   (displayRecommendations_demo_iff_count
      (some (Json.obj [("recommendations", Json.arr [Json.null])]))).2
     (Json.obj [("recommendations", Json.arr [Json.null])]) rfl rfl⟩

/-! ## Claim C10 (empty recommendations array) -/

/-- C10: a parsed response whose `recommendations` array is empty shows
only the header and separator with zero movie entries, and the demo list
is not shown. -/
theorem displayRecommendations_empty_recs (doc : Json)
    (hk : doc.containsKey "recommendations" = true)
    (he : (doc.getField "recommendations").asArr = []) :
    displayRecommendations (some doc) =
      [DispOp.clear, DispOp.setCursor 0 0, DispOp.println "🎬 Top 3 Movies",
       DispOp.println "---------------", DispOp.display] ∧
    displayRecommendations (some doc) ≠ displayDemoRecommendations := by
  have h1 : displayRecommendations (some doc) =
      [DispOp.clear, DispOp.setCursor 0 0, DispOp.println "🎬 Top 3 Movies",
       DispOp.println "---------------", DispOp.display] := by
    rw [displayRecommendations_some_of_containsKey doc hk, he]
    simp
  refine ⟨h1, ?_⟩
  rw [h1]
  decide

/-- Witness for C10: the document `{recommendations: []}`. -/
theorem displayRecommendations_empty_recs_witness :
    ((Json.obj [("recommendations", Json.arr [])]).containsKey
        "recommendations" = true) ∧
    (((Json.obj [("recommendations", Json.arr [])]).getField
        "recommendations").asArr = []) ∧
    (displayRecommendations (some (Json.obj [("recommendations", Json.arr [])])) =
      [DispOp.clear, DispOp.setCursor 0 0, DispOp.println "🎬 Top 3 Movies",
       DispOp.println "---------------", DispOp.display] ∧
     displayRecommendations (some (Json.obj [("recommendations", Json.arr [])])) ≠
       displayDemoRecommendations) :=
  ⟨rfl, rfl,
   displayRecommendations_empty_recs (Json.obj [("recommendations", Json.arr [])]) rfl rfl⟩

/-! ## Claim C9 (title shortening) -/

/-- C9 counterexample.  The title `"éééééééééé"` has 10 characters — 15
or fewer, so the claim says it is displayed unchanged — but its UTF-8
buffer is 20 bytes (each `é` is the two bytes 195, 169), so
`title.length() > 15` holds on the Arduino `String` and the code rewrites
it to its first 15 bytes plus `"..."`, splitting the eighth `é` in half.
Arduino `String::length()`/`substring` count bytes, not characters. -/
theorem shortenTitle_claim_counterexample :
    ("éééééééééé" : String).length = 10 ∧
    shortenTitleBytes (utf8Bytes "éééééééééé") ≠ utf8Bytes "éééééééééé" := by
  constructor
  · decide
  · decide

/-- C9 (amended): a title whose UTF-8 encoding is longer than 15 bytes is
displayed as its first 15 bytes followed by `"..."` — 18 bytes in all,
possibly splitting a multi-byte character at the cut — and a title of at
most 15 UTF-8 bytes is displayed unchanged. -/
theorem shortenTitleBytes_spec (title : String) :
    (15 < (utf8Bytes title).length →
      shortenTitleBytes (utf8Bytes title) =
        (utf8Bytes title).take 15 ++ utf8Bytes "..." ∧
      (shortenTitleBytes (utf8Bytes title)).length = 18) ∧
    ((utf8Bytes title).length ≤ 15 →
      shortenTitleBytes (utf8Bytes title) = utf8Bytes title) := by
  constructor
  · intro h
    have heq : shortenTitleBytes (utf8Bytes title) =
        (utf8Bytes title).take 15 ++ utf8Bytes "..." := by
      simp [shortenTitleBytes, h]
    refine ⟨heq, ?_⟩
    rw [heq, List.length_append, List.length_take,
      show (utf8Bytes "...").length = 3 from rfl]
    omega
  · intro h
    simp [shortenTitleBytes, Nat.not_lt.2 h]

/-- Witness for C9 (amended): a concrete 20-byte ASCII title. -/
theorem shortenTitleBytes_spec_witness :
    (15 < (utf8Bytes "ABCDEFGHIJKLMNOPQRST").length) ∧
    (shortenTitleBytes (utf8Bytes "ABCDEFGHIJKLMNOPQRST") =
        (utf8Bytes "ABCDEFGHIJKLMNOPQRST").take 15 ++ utf8Bytes "..." ∧
     (shortenTitleBytes (utf8Bytes "ABCDEFGHIJKLMNOPQRST")).length = 18) :=
  ⟨by decide, (shortenTitleBytes_spec "ABCDEFGHIJKLMNOPQRST").1 (by decide)⟩

/-! ## Claim C7 (request shape) -/

/-- C7: every API request the device sends — from either event handler,
in any environment — is an HTTP POST to `serverURL ++ "/api/interact"`
with content type `application/json` and a JSON body holding exactly the
fields `type` (the event's interaction type, which is `"button"` or
`"tilt"`), `data` (a string) and `device` (`"esp32"`). -/
theorem handleEvent_request_shape (env : ApiEnv) (e : Event) (req : Request)
    (h : (handleEvent env e).1.request = some req) :
    req.method = "POST" ∧
    req.url = serverURL ++ "/api/interact" ∧
    req.contentType = "application/json" ∧
    req.body = [("type", Json.str e.interactionType),
                ("data", Json.str e.dataOf),
                ("device", Json.str "esp32")] ∧
    (e.interactionType = "button" ∨ e.interactionType = "tilt") := by
  cases e with
  | button =>
    by_cases hw : env.wifiConnected
    · simp only [handleEvent, sendAPIRequest, hw, if_true, apply_ite ApiOutcome.request,
        ite_self, Option.some.injEq] at h
      subst h
      exact ⟨rfl, rfl, rfl, rfl, Or.inl rfl⟩
    · simp [handleEvent, sendAPIRequest, hw] at h
  | tilt x y =>
    by_cases hw : env.wifiConnected
    · simp only [handleEvent, sendAPIRequest, hw, if_true, apply_ite ApiOutcome.request,
        ite_self, Option.some.injEq] at h
      subst h
      exact ⟨rfl, rfl, rfl, rfl, Or.inr rfl⟩
    · simp [handleEvent, sendAPIRequest, hw] at h

/-- Witness for C7: a concrete button press with WiFi up. -/
theorem handleEvent_request_shape_witness :
    ((handleEvent ⟨true, 200, "", none⟩ Event.button).1.request =
      some ⟨"POST", serverURL ++ "/api/interact", "application/json",
            [("type", Json.str "button"), ("data", Json.str ""),
             ("device", Json.str "esp32")]⟩) ∧
    ((Request.mk "POST" (serverURL ++ "/api/interact") "application/json"
        [("type", Json.str "button"), ("data", Json.str ""),
         ("device", Json.str "esp32")]).method = "POST" ∧
     (Request.mk "POST" (serverURL ++ "/api/interact") "application/json"
        [("type", Json.str "button"), ("data", Json.str ""),
         ("device", Json.str "esp32")]).url = serverURL ++ "/api/interact" ∧
     (Request.mk "POST" (serverURL ++ "/api/interact") "application/json"
        [("type", Json.str "button"), ("data", Json.str ""),
         ("device", Json.str "esp32")]).contentType = "application/json" ∧
     (Request.mk "POST" (serverURL ++ "/api/interact") "application/json"
        [("type", Json.str "button"), ("data", Json.str ""),
         ("device", Json.str "esp32")]).body =
       [("type", Json.str Event.button.interactionType),
        ("data", Json.str Event.button.dataOf),
        ("device", Json.str "esp32")] ∧
     (Event.button.interactionType = "button" ∨ Event.button.interactionType = "tilt")) :=
  ⟨rfl,
   handleEvent_request_shape ⟨true, 200, "", none⟩ Event.button
     ⟨"POST", serverURL ++ "/api/interact", "application/json",
      [("type", Json.str "button"), ("data", Json.str ""),
       ("device", Json.str "esp32")]⟩ rfl⟩

/-! ## Claim C8 (return value discriminates the outcome) -/

/-- C8: `sendAPIRequest` returns `"Offline"` without attempting a POST
when WiFi is down, `"Error"` when the POST yields a non-positive response
code, and the raw response body when the code is positive. -/
theorem sendAPIRequest_ret_discriminates (env : ApiEnv) (ty d : String) :
    (env.wifiConnected = false →
      (sendAPIRequest env ty d).ret = "Offline" ∧
      (sendAPIRequest env ty d).request = none) ∧
    (env.wifiConnected = true → env.httpResponseCode ≤ 0 →
      (sendAPIRequest env ty d).ret = "Error") ∧
    (env.wifiConnected = true → 0 < env.httpResponseCode →
      (sendAPIRequest env ty d).ret = env.responseBody) := by
  refine ⟨fun hw => ?_, fun hw hc => ?_, fun hw hc => ?_⟩
  · simp [sendAPIRequest, hw]
  · simp [sendAPIRequest, hw, not_lt.2 hc]
  · simp [sendAPIRequest, hw, hc]

/-- Witness for C8: WiFi down yields `"Offline"` and no request. -/
theorem sendAPIRequest_ret_discriminates_witness :
    ((ApiEnv.mk false 200 "body" none).wifiConnected = false) ∧
    ((sendAPIRequest ⟨false, 200, "body", none⟩ "button" "").ret = "Offline" ∧
     (sendAPIRequest ⟨false, 200, "body", none⟩ "button" "").request = none) :=
  ⟨rfl, (sendAPIRequest_ret_discriminates ⟨false, 200, "body", none⟩ "button" "").1 rfl⟩

/-! ## Claim C2 (failure handling) -/

/-- C2 counterexample: with WiFi down, `sendAPIRequest` shows the
"WiFi Disconnected" error screen, which is not the hardcoded demo
three-movie display — so not every failure falls back to the demo list. -/
theorem wifi_failure_shows_error_not_demo :
    (sendAPIRequest ⟨false, 200, "", none⟩ "button" "").ops =
      displayError "WiFi Disconnected" ∧
    (sendAPIRequest ⟨false, 200, "", none⟩ "button" "").ops ≠
      displayDemoRecommendations := by
  refine ⟨rfl, ?_⟩
  decide

/-- C2 (amended): every failure is non-fatal and unretried — the call
issues at most one request and always returns — but only malformed JSON
falls back to the static demo display; WiFi unreachable and a
non-positive HTTP code instead show an error screen ("WiFi Disconnected"
and "API Error" respectively), each beyond a log line. -/
theorem failure_fallback_screens (env : ApiEnv) (ty d : String) :
    (env.wifiConnected = false →
      (sendAPIRequest env ty d).ops = displayError "WiFi Disconnected" ∧
      (sendAPIRequest env ty d).request = none) ∧
    (env.wifiConnected = true → env.httpResponseCode ≤ 0 →
      (sendAPIRequest env ty d).ops = displayError "API Error") ∧
    (env.wifiConnected = true → 0 < env.httpResponseCode →
      env.responseParsed = none →
      (sendAPIRequest env ty d).ops = displayDemoRecommendations) := by
  refine ⟨fun hw => ?_, fun hw hc => ?_, fun hw hc hp => ?_⟩
  · simp [sendAPIRequest, hw]
  · simp [sendAPIRequest, hw, not_lt.2 hc]
  · simp [sendAPIRequest, hw, hc, hp, displayRecommendations]

/-- Witness for C2 (amended): a response that fails to parse degrades to
the demo display. -/
theorem failure_fallback_screens_witness :
    ((ApiEnv.mk true 200 "not json" none).wifiConnected = true) ∧
    ((0 : Int) < (ApiEnv.mk true 200 "not json" none).httpResponseCode) ∧
    ((ApiEnv.mk true 200 "not json" none).responseParsed = none) ∧
    (sendAPIRequest ⟨true, 200, "not json", none⟩ "button" "").ops =
      displayDemoRecommendations :=
  ⟨rfl, by decide, rfl,
   (failure_fallback_screens ⟨true, 200, "not json", none⟩ "button" "").2.2
     rfl (by decide) rfl⟩

end SmartFlix
